import Mathlib

/-!
Verification development for PharmaGuard (a pharmacogenomic risk pipeline).

The source tree contains `app.py` (pipeline orchestration, UI-level input
validation, the PGx composite score, rendering of the interaction matrix) and
`pdf_report.py` (PDF report rendering).  `app.py` imports the domain modules
`vcf_parser`, `risk_engine`, `drug_interactions`, `schema` and `llm_explainer`,
which are not part of the source tree; wherever a definition embeds one of
those missing modules it is modelled from the specification and its doc
comment says so explicitly.  Everything else is a direct shallow embedding of
the Python source.
-/

namespace PharmaGuard

/-- Metabolizer phenotype, the closed set used throughout the pipeline. -/
inductive Phenotype
  | PM | IM | NM | RM | URM | Unknown
deriving DecidableEq, Repr

/-- Clinical risk label attached to a drug assessment. -/
inductive RiskLabel
  | Safe | AdjustDosage | Toxic | Ineffective | Unknown
deriving DecidableEq, Repr

/-- Severity grade of a risk assessment, ordered none < low < moderate < high < critical. -/
inductive Severity
  | none | low | moderate | high | critical
deriving DecidableEq, Repr

/-- Rank of a severity grade; embeds `SEV_RANK` from `app.py` (the Python code
reads it with `.get(s, 0)`, hence the default 0 for unknown strings). -/
def sevRank (s : String) : Nat :=
  if s = "none" then 0
  else if s = "low" then 1
  else if s = "moderate" then 2
  else if s = "high" then 3
  else if s = "critical" then 4
  else 0

/-- Severity rendered as the string used in the Python dict-shaped records. -/
def severityStr : Severity → String
  | .none => "none"
  | .low => "low"
  | .moderate => "moderate"
  | .high => "high"
  | .critical => "critical"

/-- Risk label rendered as the string used in the Python dict-shaped records. -/
def riskLabelStr : RiskLabel → String
  | .Safe => "Safe"
  | .AdjustDosage => "Adjust Dosage"
  | .Toxic => "Toxic"
  | .Ineffective => "Ineffective"
  | .Unknown => "Unknown"

/-- Phenotype rendered as the string used in the Python dict-shaped records. -/
def phenoStr : Phenotype → String
  | .PM => "PM"
  | .IM => "IM"
  | .NM => "NM"
  | .RM => "RM"
  | .URM => "URM"
  | .Unknown => "Unknown"

/-- The six supported drugs (the keys of the drug-risk table). -/
inductive Drug
  | CODEINE | WARFARIN | CLOPIDOGREL | SIMVASTATIN | AZATHIOPRINE | FLUOROURACIL
deriving DecidableEq, Repr

/-- Drug-name lookup: a requested drug string either names one of the six
supported drugs or misses the table. -/
def parseDrug (s : String) : Option Drug :=
  if s = "CODEINE" then some .CODEINE
  else if s = "WARFARIN" then some .WARFARIN
  else if s = "CLOPIDOGREL" then some .CLOPIDOGREL
  else if s = "SIMVASTATIN" then some .SIMVASTATIN
  else if s = "AZATHIOPRINE" then some .AZATHIOPRINE
  else if s = "FLUOROURACIL" then some .FLUOROURACIL
  else none

/-- Primary gene for each drug; embeds `GENE_DRUG_MAP` from `app.py`. -/
def geneOf : Drug → String
  | .CODEINE => "CYP2D6"
  | .WARFARIN => "CYP2C9"
  | .CLOPIDOGREL => "CYP2C19"
  | .SIMVASTATIN => "SLCO1B1"
  | .AZATHIOPRINE => "TPMT"
  | .FLUOROURACIL => "DPYD"

/-- The six-gene panel, in panel-definition order. -/
def PANEL_GENES : List String := ["CYP2D6", "CYP2C19", "CYP2C9", "SLCO1B1", "TPMT", "DPYD"]

/-- The six supported drug names; embeds `ALL_DRUGS` from `app.py` (there the
keys of the drug-risk table, which maps exactly these six drugs). -/
def ALL_DRUGS : List String :=
  ["CODEINE", "WARFARIN", "CLOPIDOGREL", "SIMVASTATIN", "AZATHIOPRINE", "FLUOROURACIL"]

/-- One called variant as produced by intake. -/
structure Variant where
  rsid : String
  ref : String
  alt : String
  zygosity : String
deriving DecidableEq, Repr

/-- Aggregate result of variant intake. -/
structure ParsedPanel where
  total_variants : Nat
  detected_genes : List String
  gene_variants : List (String × List Variant)
  parse_errors : List String
deriving DecidableEq, Repr

/-- A star-allele definition: defining variant signature, activity value and
whether it is a duplication (increased-function) allele. -/
structure AlleleDef where
  star : String
  rsid : String
  alt : String
  activity : ℚ
  dup : Bool
deriving DecidableEq, Repr

/-- Modelled from the spec: the gene panel definition lives in `risk_engine.py`
(resp. `vcf_parser.py`), which is not under the source tree.  Per gene, the
known star alleles with their defining reference-SNP signature, activity value
and duplication flag (duplication-capable genes enable the Ultrarapid tier). -/
def GENE_ALLELES (g : String) : List AlleleDef :=
  if g = "CYP2D6" then
    [⟨"*4", "rs3892097", "A", 0, false⟩, ⟨"*10", "rs1065852", "T", 1/2, false⟩,
     ⟨"*1xN", "rs1135840", "G", 2, true⟩]
  else if g = "CYP2C19" then
    [⟨"*2", "rs4244285", "A", 0, false⟩, ⟨"*3", "rs4986893", "A", 0, false⟩,
     ⟨"*17", "rs12248560", "T", 3/2, false⟩]
  else if g = "CYP2C9" then
    [⟨"*2", "rs1799853", "T", 1/2, false⟩, ⟨"*3", "rs1057910", "C", 0, false⟩]
  else if g = "SLCO1B1" then
    [⟨"*5", "rs4149056", "C", 0, false⟩]
  else if g = "TPMT" then
    [⟨"*3B", "rs1800460", "A", 0, false⟩, ⟨"*3C", "rs1142345", "G", 0, false⟩]
  else if g = "DPYD" then
    [⟨"*2A", "rs3918290", "A", 0, false⟩]
  else []

/-- Modelled from the spec: allele matching (`risk_engine.py` is not under the
source tree) — a variant matches a known allele when its reference-SNP id and
allele change agree with the signature. -/
def matchAllele (gene : String) (v : Variant) : Option AlleleDef :=
  (GENE_ALLELES gene).find? (fun a => a.rsid == v.rsid && a.alt == v.alt)

/-- The homozygous-reference wild-type allele. -/
def refAllele : AlleleDef := ⟨"*1", "", "", 1, false⟩

/-- Modelled from the spec: diplotype construction (`risk_engine.py` is not
under the source tree).  A homozygous match puts the allele on both copies; a
single heterozygous match pairs with the reference allele; two distinct
heterozygous matches give compound heterozygosity; no match yields `[]`,
which resolves to phenotype Unknown downstream. -/
def resolveDiplotype (gene : String) (vars : List Variant) : List AlleleDef :=
  let hom := (vars.filter (fun v => v.zygosity == "homozygous")).filterMap (matchAllele gene)
  let het := ((vars.filter (fun v => v.zygosity == "heterozygous")).filterMap (matchAllele gene)).dedup
  match hom with
  | a :: _ => [a, a]
  | [] =>
    match het with
    | [] => []
    | [a] => [a, refAllele]
    | a :: b :: _ => [a, b]

/-- Modelled from the spec: activity score of a diplotype (`risk_engine.py` is
not under the source tree).  For a duplication allele the activity is
multiplied rather than summed, enabling the Ultrarapid tier. -/
def diplotypeScore (d : List AlleleDef) : ℚ :=
  if d.any (fun a => a.dup) then d.foldl (fun s a => s * a.activity) 1
  else d.foldl (fun s a => s + a.activity) 0

/-- Whether the gene has an Ultrarapid threshold tier (duplication-capable
genes; matches the genes whose population table in `app.py` lists a URM
fraction). -/
def geneHasURM (g : String) : Bool := g == "CYP2D6" || g == "CYP2C19"

/-- Modelled from the spec: the gene-specific activity-score threshold table
(`risk_engine.py` is not under the source tree).  A gene lacking an Ultrarapid
tier caps its highest phenotype at Rapid. -/
def phenotypeFromScore (gene : String) (s : ℚ) : Phenotype :=
  if s ≤ 1/2 then .PM
  else if s < 3/2 then .IM
  else if s ≤ 2 then .NM
  else if geneHasURM gene then (if s < 3 then .RM else .URM)
  else .RM

/-- Variants grouped under a gene in a parsed panel. -/
def geneVariants (parsed : ParsedPanel) (gene : String) : List Variant :=
  (((parsed.gene_variants.find? (fun p => p.1 == gene)).map Prod.snd)).getD []

/-- Modelled from the spec: phenotype resolution (`risk_engine.py` is not under
the source tree).  A gene absent from `detected_genes` is forced to Normal
under the wild-type assumption; Unknown is reserved for a detected gene none
of whose variants matches a known allele signature. -/
def resolvePhenotype (parsed : ParsedPanel) (gene : String) : Phenotype :=
  if gene ∈ parsed.detected_genes then
    match resolveDiplotype gene (geneVariants parsed gene) with
    | [] => .Unknown
    | d => phenotypeFromScore gene (diplotypeScore d)
  else .NM

/-- Diplotype rendered as a star-allele pair string; the empty diplotype of an
undetected gene renders as the wild-type pair. -/
def diplotypeStr : List AlleleDef → String
  | [a, b] => a.star ++ "/" ++ b.star
  | _ => "*1/*1"

/-- Modelled from the spec: the fixed phenotype-by-drug risk table
(`risk_engine.py` is not under the source tree).  Labels follow the expected
outcomes recorded in `TEST_SUITE` in `app.py` (e.g. worst-case all-PM:
CODEINE and CLOPIDOGREL Ineffective, WARFARIN Adjust Dosage, SIMVASTATIN,
AZATHIOPRINE and FLUOROURACIL Toxic; CYP2D6 URM: CODEINE Toxic).  Phenotype
Unknown maps to label Unknown with severity none regardless of drug. -/
def riskEntry : Drug → Phenotype → RiskLabel × Severity
  | _, .Unknown => (.Unknown, .none)
  | .CODEINE, .PM => (.Ineffective, .high)
  | .CODEINE, .IM => (.AdjustDosage, .moderate)
  | .CODEINE, .NM => (.Safe, .none)
  | .CODEINE, .RM => (.AdjustDosage, .moderate)
  | .CODEINE, .URM => (.Toxic, .critical)
  | .WARFARIN, .PM => (.AdjustDosage, .high)
  | .WARFARIN, .IM => (.AdjustDosage, .moderate)
  | .WARFARIN, _ => (.Safe, .none)
  | .CLOPIDOGREL, .PM => (.Ineffective, .high)
  | .CLOPIDOGREL, .IM => (.AdjustDosage, .moderate)
  | .CLOPIDOGREL, _ => (.Safe, .none)
  | .SIMVASTATIN, .PM => (.Toxic, .high)
  | .SIMVASTATIN, .IM => (.AdjustDosage, .moderate)
  | .SIMVASTATIN, _ => (.Safe, .none)
  | .AZATHIOPRINE, .PM => (.Toxic, .critical)
  | .AZATHIOPRINE, .IM => (.AdjustDosage, .high)
  | .AZATHIOPRINE, _ => (.Safe, .none)
  | .FLUOROURACIL, .PM => (.Toxic, .critical)
  | .FLUOROURACIL, .IM => (.AdjustDosage, .high)
  | .FLUOROURACIL, _ => (.Safe, .none)

/-- Modelled from the spec: confidence scaling (`risk_engine.py` is not under
the source tree) — base confidence scaled with the corroborating variant
count, floored at 1/4 and capped at 1. -/
def confidenceScale (base : ℚ) (nvars : Nat) : ℚ :=
  min 1 (max (1/4) (base + (nvars : ℚ) / 10 - 1/10))

/-- One per-drug risk result. -/
structure RiskResult where
  drug : String
  primary_gene : String
  diplotype : String
  phenotype : Phenotype
  risk_label : RiskLabel
  severity : Severity
  confidence : ℚ
  llm_explanation : String := ""
deriving DecidableEq, Repr

/-- Modelled from the spec: the per-drug classification (`risk_engine.py` is
not under the source tree).  An unrecognized drug name yields label Unknown,
severity none, confidence 0 without aborting the batch. -/
def resultFor (parsed : ParsedPanel) (ds : String) : RiskResult :=
  match parseDrug ds with
  | none =>
    { drug := ds, primary_gene := "", diplotype := "", phenotype := .Unknown,
      risk_label := .Unknown, severity := .none, confidence := 0 }
  | some d =>
    let g := geneOf d
    let vars := geneVariants parsed g
    let ph := resolvePhenotype parsed g
    { drug := ds, primary_gene := g, diplotype := diplotypeStr (resolveDiplotype g vars),
      phenotype := ph, risk_label := (riskEntry d ph).1, severity := (riskEntry d ph).2,
      confidence := confidenceScale (9/10) vars.length }

/-- Modelled from the spec: `risk_engine.run_risk_assessment` is not under the
source tree — one risk result per requested drug, in request order. -/
def run_risk_assessment (parsed : ParsedPanel) (drugs : List String) : List RiskResult :=
  drugs.map (resultFor parsed)

/-- One detected drug-drug interaction. -/
structure Finding where
  itype : String
  drugs_involved : List String
  severity : String
  mechanism : String
  recommendation : String
deriving DecidableEq, Repr

/-- One row of the static interaction-rule table, keyed by a drug pair. -/
structure IxRule where
  d1 : String
  d2 : String
  itype : String
  severity : String
  mechanism : String
  recommendation : String
deriving DecidableEq, Repr

/-- Modelled from the spec: the static interaction-rule table
(`drug_interactions.py` is not under the source tree), keyed by unordered drug
pair, with a pair severity independent of the individual drugs. -/
def IX_RULES : List IxRule :=
  [⟨"CODEINE", "CLOPIDOGREL", "shared-pathway-competition", "moderate",
    "Competition for hepatic metabolic capacity.", "Monitor analgesic effect."⟩,
   ⟨"WARFARIN", "SIMVASTATIN", "additive-toxicity", "high",
    "Additive exposure raises bleeding and myopathy risk.", "Reduce doses and monitor INR."⟩,
   ⟨"AZATHIOPRINE", "FLUOROURACIL", "additive-toxicity", "critical",
    "Combined marrow suppression.", "Avoid combination."⟩]

/-- Modelled from the spec: rule lookup for an unordered drug pair — a table
row matches the pair in either orientation. -/
def lookupIxRule (a b : String) : Option IxRule :=
  IX_RULES.find? (fun r => (r.d1 == a && r.d2 == b) || (r.d1 == b && r.d2 == a))

/-- All ordered pairs (i, j) with i before j in the list. -/
def allPairs : List String → List (String × String)
  | [] => []
  | x :: xs => xs.map (fun y => (x, y)) ++ allPairs xs

/-- One step of the running-maximum over finding severities. -/
def sevStep (acc : String) (f : Finding) : String :=
  if sevRank acc < sevRank f.severity then f.severity else acc

/-- Modelled from the spec: `risk_engine.get_overall_severity` is not under the
source tree — the maximum severity across findings, or "none" if there are
none. -/
def get_overall_severity (findings : List Finding) : String :=
  findings.foldl sevStep "none"

/-- The interaction report aggregate. -/
structure IxReport where
  interactions_found : Bool
  total_interactions : Nat
  overall_severity : String
  all_interactions : List Finding
deriving DecidableEq, Repr

/-- Modelled from the spec: `drug_interactions.run_interaction_analysis` is not
under the source tree — for every unordered pair of requested drugs, a rule
match yields a finding; an unmatched pair is simply omitted. -/
def run_interaction_analysis (drugs : List String) (_results : List RiskResult) : IxReport :=
  let findings := (allPairs drugs).filterMap (fun p =>
    (lookupIxRule p.1 p.2).map (fun r =>
      Finding.mk r.itype [p.1, p.2] r.severity r.mechanism r.recommendation))
  ⟨!findings.isEmpty, findings.length, get_overall_severity findings, findings⟩

/-- Modelled from the spec: `llm_explainer.generate_all_explanations` is not
under the source tree — attaches an explanation to each result (static
template when the LLM is skipped or no key is given) without touching the
risk fields. -/
def generate_all_explanations (key : String) (results : List RiskResult) (skip_llm : Bool) :
    List RiskResult :=
  results.map (fun r =>
    { r with llm_explanation :=
        if skip_llm || key == "" then "static:" ++ r.drug else "llm:" ++ r.drug })

/-- The per-drug output record handed to rendering and export. -/
structure Output where
  patient_id : String
  drug : String
  risk_label : String
  severity : String
  confidence_score : ℚ
  primary_gene : String
  diplotype : String
  phenotype : String
  llm_explanation : String
deriving DecidableEq, Repr

/-- Modelled from the spec: `schema.build_output_schema` is not under the
source tree — flattens a risk result into the output record consumed by
rendering/export, stringifying the closed enumerations. -/
def build_output_schema (pid : String) (r : RiskResult) : Output :=
  { patient_id := pid, drug := r.drug, risk_label := riskLabelStr r.risk_label,
    severity := severityStr r.severity, confidence_score := r.confidence,
    primary_gene := r.primary_gene, diplotype := r.diplotype,
    phenotype := phenoStr r.phenotype, llm_explanation := r.llm_explanation }

/-- Modelled from the spec: `vcf_parser` row parsing is not under the source
tree — a data row needs the full column count and a recognizable sample
genotype; two ref alleles are not reported as a variant, so only het/hom
encodings are accepted. -/
def parseDataLine (line : String) : Except String Variant :=
  let cols := line.splitOn "\t"
  if cols.length < 10 then .error ("wrong column count: " ++ line)
  else
    let gt := cols.getD 9 ""
    if gt.startsWith "1/1" || gt.startsWith "1|1" then
      .ok ⟨cols.getD 2 "", cols.getD 3 "", cols.getD 4 "", "homozygous"⟩
    else if gt.startsWith "0/1" || gt.startsWith "0|1" || gt.startsWith "1/0" || gt.startsWith "1|0" then
      .ok ⟨cols.getD 2 "", cols.getD 3 "", cols.getD 4 "", "heterozygous"⟩
    else .error ("unrecognized genotype: " ++ line)

/-- Modelled from the spec: `vcf_parser.parse_vcf` is not under the source
tree — header lines are skipped, malformed data rows are recorded as parse
errors without aborting, variants are attributed to panel genes by signature
match, and `detected_genes` is listed in panel order. -/
def parse_vcf (text : String) : ParsedPanel :=
  let rows := (text.splitOn "\n").filter (fun l => l.trim != "" && !l.startsWith "#")
  let folded := rows.foldl (fun (acc : List Variant × List String) l =>
    match parseDataLine l with
    | .ok v => (acc.1 ++ [v], acc.2)
    | .error e => (acc.1, acc.2 ++ [e])) ([], [])
  let gvs := PANEL_GENES.map (fun g =>
    (g, folded.1.filter (fun v => (GENE_ALLELES g).any (fun a => a.rsid == v.rsid))))
  { total_variants := folded.1.length,
    detected_genes := (gvs.filter (fun p => !p.2.isEmpty)).map Prod.fst,
    gene_variants := gvs,
    parse_errors := folded.2 }

/-- The five values returned by `run_pipeline` in `app.py`. -/
structure PipelineResult where
  parsed : ParsedPanel
  results : List RiskResult
  outputs : List Output
  ix : Option IxReport
  pdf : Option (List UInt8)
deriving DecidableEq, Repr

/-- Embeds `run_pipeline` from `app.py`.  PDF rendering (`generate_pdf_report`)
is a runtime-fallible external call, so it is passed in as a fallible
function; the Python `try/except: pass` around it becomes a match that maps
any error to `none`.  Interactions run only when enabled and more than one
drug is requested. -/
def run_pipeline (genPdfFn : String → List Output → ParsedPanel → Except String (List UInt8))
    (vcf : String) (drugs : List String) (pid key : String)
    (run_ix gen_pdf skip_llm : Bool) : PipelineResult :=
  let parsed := parse_vcf vcf
  let results := generate_all_explanations key (run_risk_assessment parsed drugs) skip_llm
  let outputs := results.map (build_output_schema pid)
  let ix := if run_ix = true ∧ 1 < drugs.length
    then some (run_interaction_analysis drugs results) else none
  let pdf := if gen_pdf = true then
      match genPdfFn pid outputs parsed with
      | .ok b => some b
      | .error _ => none
    else none
  ⟨parsed, results, outputs, ix, pdf⟩

/-- Embeds `SEV_S` from `compute_pgx` in `app.py` (dict read with default 0). -/
def SEV_S (s : String) : ℚ :=
  if s = "none" then 0 else if s = "low" then 20 else if s = "moderate" then 45
  else if s = "high" then 70 else if s = "critical" then 100 else 0

/-- Embeds `RISK_S` from `compute_pgx` in `app.py` (dict read with default 0). -/
def RISK_S (s : String) : ℚ :=
  if s = "Safe" then 0 else if s = "Adjust Dosage" then 35 else if s = "Toxic" then 85
  else if s = "Ineffective" then 70 else if s = "Unknown" then 20 else 0

/-- Embeds `W` from `compute_pgx` in `app.py` (dict read with default 1.0). -/
def W_PGX (d : String) : ℚ :=
  if d = "FLUOROURACIL" then 14/10 else if d = "AZATHIOPRINE" then 13/10
  else if d = "CLOPIDOGREL" then 13/10 else if d = "WARFARIN" then 12/10
  else if d = "CODEINE" then 11/10 else if d = "SIMVASTATIN" then 1 else 1

/-- The fixed label list of `compute_pgx`. -/
def PGX_LABELS : List String :=
  ["Low Risk", "Moderate Risk", "High Risk", "Very High Risk", "Critical Risk"]

/-- Python `int()` on a rational: truncation toward zero. -/
def pyInt (q : ℚ) : Int := if 0 ≤ q then ⌊q⌋ else -⌊-q⌋

/-- One step of the accumulation loop of `compute_pgx` in `app.py`:
running weighted score sum, running weight total, and the breakdown list. -/
def pgxStep (acc : ℚ × ℚ × List (String × String × String × String × ℚ)) (o : Output) :
    ℚ × ℚ × List (String × String × String × String × ℚ) :=
  let sc := (SEV_S o.severity + RISK_S o.risk_label) / 2
  let wt := W_PGX o.drug
  (acc.1 + sc * wt, acc.2.1 + wt, acc.2.2 ++ [(o.primary_gene, o.drug, o.phenotype, o.risk_label, sc)])

/-- The accumulation loop of `compute_pgx` over all outputs. -/
def pgxFold (outputs : List Output) : ℚ × ℚ × List (String × String × String × String × ℚ) :=
  outputs.foldl pgxStep (0, 0, [])

/-- The final score of `compute_pgx`: `min(100, int(ws / tw)) if tw else 0`. -/
def pgxFinal (outputs : List Output) : Int :=
  if (pgxFold outputs).2.1 ≠ 0 then
    min 100 (pyInt ((pgxFold outputs).1 / (pgxFold outputs).2.1))
  else 0

/-- Embeds `compute_pgx` from `app.py`: empty input returns `(0, "No data", [])`;
otherwise the score is `min(100, int(ws/tw))` and the label is
`labels[min(4, final // 20)]` (the index is shown in range, so list `getD`
coincides with Python indexing). -/
def compute_pgx (outputs : List Output) :
    Int × String × List (String × String × String × String × ℚ) :=
  if outputs.isEmpty then (0, "No data", [])
  else
    (pgxFinal outputs,
     PGX_LABELS.getD (min 4 (Int.fdiv (pgxFinal outputs) 20)).toNat "",
     (pgxFold outputs).2.2)

/-- Substring test on character lists (Python `needle in hay`). -/
def containsSub (hay needle : List Char) : Bool :=
  (List.range (hay.length + 1)).any (fun i => needle.isPrefixOf (hay.drop i))

/-- The `##fileformat=VCF` marker checked by the upload validator. -/
def VCF_MARKER1 : List Char := "##fileformat=VCF".toList

/-- The `#CHROM` column-header marker checked by the upload validator. -/
def VCF_MARKER2 : List Char := "#CHROM".toList

/-- Embeds the VCF upload validation of the Analysis tab in `app.py`: the size
in bytes divided by 1024², compared against 5 MB; then the first 400 bytes are
peeked and must contain one of the two VCF markers. -/
def validateUpload (sizeBytes : Nat) (content : String) : Bool :=
  if 5 < (sizeBytes : ℚ) / (1024 * 1024) then false
  else
    let peek := content.toList.take 400
    if !containsSub peek VCF_MARKER1 && !containsSub peek VCF_MARKER2 then false
    else true

/-- After validation the Analysis tab keeps the upload only when it passed
(`uploaded = None` on either rejection). -/
def uploadedAfterValidation (sizeBytes : Nat) (content : String) : Option String :=
  if validateUpload sizeBytes content then some content else none

/-- Embeds the VCF-content selection of the Run Analysis handler in `app.py`:
persona file when no upload and no scenario, else the upload, else the
scenario file, else no run (error and stop — the pipeline is not invoked). -/
def analysisVcf (loadFn : String → String) (personaFile upl chosenFile : Option String) :
    Option String :=
  match personaFile, upl, chosenFile with
  | some p, none, none => some (loadFn p)
  | _, some u, _ => some u
  | _, none, some c => some (loadFn c)
  | _, none, none => none

/-- Embeds the custom-drug processing of the Run Analysis handler in `app.py`:
split on commas, drop entries that strip to empty, strip and uppercase the
rest (nothing is added when the whole field strips to empty). -/
def customDrugList (custom : String) : List String :=
  if custom.trim ≠ "" then
    ((custom.splitOn ",").filter (fun d => d.trim != "")).map (fun d => d.trim.toUpper)
  else []

/-- Embeds `all_drugs = list(set(drugs_sel + customs))`: the deduplicated union
of selected and custom drugs. -/
def assembleDrugs (sel : List String) (custom : String) : List String :=
  (sel ++ customDrugList custom).dedup

/-- Embeds the empty-drug-set guard: an empty assembled set stops the run with
an error (`none`), so the pipeline is not invoked. -/
def runAnalysisDrugs (sel : List String) (custom : String) : Option (List String) :=
  let all := assembleDrugs sel custom
  if all.isEmpty then none else some all

/-- Embeds the gene status cell of `generate_pdf_report` in `pdf_report.py`:
a panel gene renders "Variants Detected" when it is among the detected genes
and the wild-type pair otherwise. -/
def pdfGeneStatus (gene : String) (genes_found : List String) : String :=
  if gene ∈ genes_found then "Variants Detected" else "Wild-type (*1/*1)"

/-- Embeds one dict assignment pass of `render_ix_matrix` in `app.py`: a
two-drug finding writes its severity under both orientations of the pair
(later writes shadow earlier ones, hence the prepend). -/
def smInsert (sm : List ((String × String) × String)) (x : Finding) :
    List ((String × String) × String) :=
  match x.drugs_involved with
  | [a, b] => ((a, b), x.severity) :: ((b, a), x.severity) :: sm
  | _ => sm

/-- The severity map `sm` built by `render_ix_matrix` from all findings. -/
def buildSm (findings : List Finding) : List ((String × String) × String) :=
  findings.foldl smInsert []

/-- Embeds `sm.get((d1, d2), "none")`: the severity rendered in an off-diagonal
cell of the interaction matrix. -/
def smGet : List ((String × String) × String) → String × String → String
  | [], _ => "none"
  | (k, v) :: rest, q => if k = q then v else smGet rest q

/-- Canonical form of a finding's drug pair, used to compare findings sets up
to the order the two drugs were requested in. -/
def pairKey : List String → List String
  | [a, b] => if a ≤ b then [a, b] else [b, a]
  | l => l

/-- The order-insensitive keys of an interaction report's findings. -/
def findingKeys (rep : IxReport) : List (List String × String × String) :=
  rep.all_interactions.map (fun f => (pairKey f.drugs_involved, f.itype, f.severity))

/-- A concrete parsed panel with one homozygous no-function TPMT variant. -/
def parsedTPMT : ParsedPanel :=
  { total_variants := 1, detected_genes := ["TPMT"],
    gene_variants := [("TPMT", [⟨"rs1800460", "G", "A", "homozygous"⟩])],
    parse_errors := [] }

/-- A concrete output record for exercising `compute_pgx`. -/
def outC10 : Output :=
  ⟨"PID-1", "CODEINE", "Safe", "none", 9/10, "CYP2D6", "*1/*1", "NM", "static"⟩

/-- C2: a panel gene absent from the detected genes resolves to the Normal
wild-type phenotype, never to Unknown, and the PDF report renders its status
cell as the wild-type star-allele pair. -/
theorem claim_C2 (parsed : ParsedPanel) (gene : String)
    (h : gene ∉ parsed.detected_genes) :
    resolvePhenotype parsed gene = Phenotype.NM ∧
    resolvePhenotype parsed gene ≠ Phenotype.Unknown ∧
    pdfGeneStatus gene parsed.detected_genes = "Wild-type (*1/*1)" := by
  refine ⟨?_, ?_, ?_⟩ <;> simp [resolvePhenotype, pdfGeneStatus, h]

/-- Witness for C2 at a concrete empty panel and gene. -/
theorem claim_C2_w :
    resolvePhenotype ⟨0, [], [], []⟩ "CYP2D6" = Phenotype.NM ∧
    pdfGeneStatus "CYP2D6" ([] : List String) = "Wild-type (*1/*1)" :=
  ⟨(claim_C2 ⟨0, [], [], []⟩ "CYP2D6" (by simp)).1,
   (claim_C2 ⟨0, [], [], []⟩ "CYP2D6" (by simp)).2.2⟩

/-- C6: the pipeline returns no interaction report when interaction checking
is disabled or fewer than two drugs are requested, and invokes the interaction
analysis on the requested drug list when it is enabled and at least two drugs
are requested. -/
theorem claim_C6 (genPdfFn : String → List Output → ParsedPanel → Except String (List UInt8))
    (vcf : String) (drugs : List String) (pid key : String) (run_ix gen_pdf skip_llm : Bool) :
    ((run_ix = false ∨ drugs.length ≤ 1) →
      (run_pipeline genPdfFn vcf drugs pid key run_ix gen_pdf skip_llm).ix = none) ∧
    (run_ix = true → 2 ≤ drugs.length →
      (run_pipeline genPdfFn vcf drugs pid key run_ix gen_pdf skip_llm).ix =
        some (run_interaction_analysis drugs
          (generate_all_explanations key (run_risk_assessment (parse_vcf vcf) drugs) skip_llm))) := by
  constructor
  · intro h
    have hcond : ¬(run_ix = true ∧ 1 < drugs.length) := by
      rcases h with h | h
      · rintro ⟨h1, _⟩; rw [h] at h1; exact Bool.false_ne_true h1
      · rintro ⟨_, h2⟩; omega
    simp [run_pipeline, hcond]
  · intro h1 h2
    have hcond : run_ix = true ∧ 1 < drugs.length := ⟨h1, by omega⟩
    simp [run_pipeline, hcond]

/-- Witness for C6 with an empty drug list. -/
theorem claim_C6_w :
    (run_pipeline (fun _ _ _ => Except.ok []) "" [] "" "" true true true).ix = none :=
  (claim_C6 (fun _ _ _ => Except.ok []) "" [] "" "" true true true).1 (Or.inr (by simp))

/-- C9: when PDF rendering fails, the failure is swallowed — the pipeline
returns `none` for the PDF and every other returned value coincides with a
run that has PDF generation disabled. -/
theorem claim_C9 (genPdfFn : String → List Output → ParsedPanel → Except String (List UInt8))
    (vcf : String) (drugs : List String) (pid key : String) (run_ix skip_llm : Bool) (e : String)
    (h : genPdfFn pid
        ((generate_all_explanations key (run_risk_assessment (parse_vcf vcf) drugs) skip_llm).map
          (build_output_schema pid)) (parse_vcf vcf) = Except.error e) :
    run_pipeline genPdfFn vcf drugs pid key run_ix true skip_llm =
      run_pipeline genPdfFn vcf drugs pid key run_ix false skip_llm ∧
    (run_pipeline genPdfFn vcf drugs pid key run_ix true skip_llm).pdf = none := by
  constructor <;> simp [run_pipeline, h]

/-- Witness for C9 with a PDF renderer that always fails. -/
theorem claim_C9_w :
    run_pipeline (fun _ _ _ => Except.error "pdf failure") "" [] "" "" true true true =
      run_pipeline (fun _ _ _ => Except.error "pdf failure") "" [] "" "" true false true :=
  (claim_C9 (fun _ _ _ => Except.error "pdf failure") "" [] "" "" true true "pdf failure" rfl).1

/-- The running maximum over severities never decreases below its seed. -/
theorem foldl_sevStep_ge (fs : List Finding) :
    ∀ acc, sevRank acc ≤ sevRank (fs.foldl sevStep acc) := by
  induction fs with
  | nil => intro acc; simp
  | cons f t ih =>
    intro acc
    refine le_trans ?_ (ih (sevStep acc f))
    unfold sevStep
    split_ifs with h
    · exact Nat.le_of_lt h
    · exact Nat.le_refl _

/-- Every finding's severity rank is bounded by the running maximum. -/
theorem foldl_sevStep_mem_le (fs : List Finding) :
    ∀ acc, ∀ f ∈ fs, sevRank f.severity ≤ sevRank (fs.foldl sevStep acc) := by
  induction fs with
  | nil => intro _ f hf; cases hf
  | cons g t ih =>
    intro acc f hf
    rcases List.mem_cons.mp hf with h | h
    · rw [h]
      refine le_trans ?_ (foldl_sevStep_ge t (sevStep acc g))
      unfold sevStep
      split_ifs with h2
      · exact Nat.le_refl _
      · omega
    · exact ih (sevStep acc g) f h

/-- The running maximum is either the seed or one of the findings' severities. -/
theorem foldl_sevStep_attained (fs : List Finding) :
    ∀ acc, fs.foldl sevStep acc = acc ∨ ∃ f ∈ fs, fs.foldl sevStep acc = f.severity := by
  induction fs with
  | nil => intro acc; exact Or.inl rfl
  | cons g t ih =>
    intro acc
    rcases ih (sevStep acc g) with h | ⟨f, hf, he⟩
    · rw [List.foldl_cons]
      by_cases h2 : sevRank acc < sevRank g.severity
      · right
        refine ⟨g, List.mem_cons_self g t, ?_⟩
        rw [h]; unfold sevStep; rw [if_pos h2]
      · left
        rw [h]; unfold sevStep; rw [if_neg h2]
    · right
      exact ⟨f, List.mem_cons_of_mem g hf, by rw [List.foldl_cons]; exact he⟩

/-- C4: the interaction report's overall severity is "none" when there are no
findings, bounds every finding's severity, and is attained by some finding
whenever it is not "none" — i.e. it is the maximum severity across findings. -/
theorem claim_C4 (drugs : List String) (results : List RiskResult) :
    ((run_interaction_analysis drugs results).all_interactions = [] →
      (run_interaction_analysis drugs results).overall_severity = "none") ∧
    (∀ f ∈ (run_interaction_analysis drugs results).all_interactions,
      sevRank f.severity ≤ sevRank (run_interaction_analysis drugs results).overall_severity) ∧
    ((run_interaction_analysis drugs results).overall_severity = "none" ∨
      ∃ f ∈ (run_interaction_analysis drugs results).all_interactions,
        (run_interaction_analysis drugs results).overall_severity = f.severity) := by
  have hfields : (run_interaction_analysis drugs results).overall_severity =
      get_overall_severity (run_interaction_analysis drugs results).all_interactions := rfl
  refine ⟨?_, ?_, ?_⟩
  · intro h; rw [hfields, h]; rfl
  · intro f hf
    rw [hfields]
    exact foldl_sevStep_mem_le _ "none" f hf
  · rw [hfields]
    rcases foldl_sevStep_attained
        ((run_interaction_analysis drugs results).all_interactions) "none" with h | h
    · exact Or.inl h
    · exact Or.inr h

/-- Witness for C4 on an empty request. -/
theorem claim_C4_w : (run_interaction_analysis [] []).overall_severity = "none" :=
  (claim_C4 [] []).1 rfl

/-- In the fixed risk table, labels Toxic and Ineffective only ever pair with
severities above low. -/
theorem riskEntry_label_severity (d : Drug) (ph : Phenotype) :
    ((riskEntry d ph).1 = RiskLabel.Toxic ∨ (riskEntry d ph).1 = RiskLabel.Ineffective) →
    (riskEntry d ph).2 ≠ Severity.none ∧ (riskEntry d ph).2 ≠ Severity.low := by
  cases d <;> cases ph <;> decide

/-- C1: every produced risk result with label Toxic or Ineffective has a
severity above low, and every produced (label, severity) pair is either the
unknown-drug default or a row of the fixed risk table. -/
theorem claim_C1 (parsed : ParsedPanel) (drugs : List String) (r : RiskResult)
    (hr : r ∈ run_risk_assessment parsed drugs) :
    ((r.risk_label = RiskLabel.Toxic ∨ r.risk_label = RiskLabel.Ineffective) →
      r.severity ≠ Severity.none ∧ r.severity ≠ Severity.low) ∧
    ((r.risk_label = RiskLabel.Unknown ∧ r.severity = Severity.none) ∨
      ∃ d ph, r.risk_label = (riskEntry d ph).1 ∧ r.severity = (riskEntry d ph).2) := by
  obtain ⟨ds, _, rfl⟩ := List.mem_map.mp hr
  cases h : parseDrug ds with
  | none =>
    constructor
    · intro hl
      rcases hl with hl | hl <;> simp [resultFor, h] at hl
    · left
      constructor <;> simp [resultFor, h]
  | some d =>
    constructor
    · intro hl
      have hcons := riskEntry_label_severity d (resolvePhenotype parsed (geneOf d))
      simp only [resultFor, h] at hl ⊢
      exact hcons hl
    · right
      refine ⟨d, resolvePhenotype parsed (geneOf d), ?_, ?_⟩ <;> simp [resultFor, h]

/-- Witness for C1 on a homozygous no-function TPMT panel with azathioprine,
which classifies as Toxic. -/
theorem claim_C1_w :
    (resultFor parsedTPMT "AZATHIOPRINE").severity ≠ Severity.none ∧
    (resultFor parsedTPMT "AZATHIOPRINE").severity ≠ Severity.low :=
  (claim_C1 parsedTPMT ["AZATHIOPRINE"] (resultFor parsedTPMT "AZATHIOPRINE")
    (by simp [run_risk_assessment])).1 (Or.inl (by
      simp [resultFor, parseDrug, geneOf, resolvePhenotype, parsedTPMT, geneVariants,
        resolveDiplotype, matchAllele, GENE_ALLELES, diplotypeScore, phenotypeFromScore, riskEntry,
        refAllele]))

/-- C3: on a wild-type input in which no variant matched any panel gene, every
one of the six drugs classifies as Safe and every panel gene resolves to the
Normal phenotype. -/
theorem claim_C3 (parsed : ParsedPanel) (h : parsed.detected_genes = []) :
    (∀ r ∈ run_risk_assessment parsed ALL_DRUGS,
      r.risk_label = RiskLabel.Safe ∧ r.phenotype = Phenotype.NM) ∧
    (∀ g ∈ PANEL_GENES, resolvePhenotype parsed g = Phenotype.NM) := by
  have hph : ∀ g : String, resolvePhenotype parsed g = Phenotype.NM := by
    intro g
    unfold resolvePhenotype
    rw [h]
    simp
  constructor
  · intro r hr
    obtain ⟨ds, hds, rfl⟩ := List.mem_map.mp hr
    fin_cases hds <;>
      (constructor <;> simp [resultFor, parseDrug, geneOf, hph, riskEntry])
  · intro g _
    exact hph g

/-- Witness for C3 at a concrete empty panel. -/
theorem claim_C3_w : resolvePhenotype ⟨0, [], [], []⟩ "TPMT" = Phenotype.NM :=
  (claim_C3 ⟨0, [], [], []⟩ rfl).2 "TPMT" (by decide)

/-- Interaction-rule lookup does not depend on the orientation of the pair. -/
theorem lookupIxRule_symm (a b : String) : lookupIxRule a b = lookupIxRule b a := by
  unfold lookupIxRule
  have hp : (fun r : IxRule => (r.d1 == a && r.d2 == b) || (r.d1 == b && r.d2 == a)) =
      (fun r : IxRule => (r.d1 == b && r.d2 == a) || (r.d1 == a && r.d2 == b)) :=
    funext fun r => Bool.or_comm _ _
  rw [hp]

/-- The canonical key of a drug pair is orientation-independent. -/
theorem pairKey_comm (a b : String) : pairKey [a, b] = pairKey [b, a] := by
  simp only [pairKey]
  rcases le_total a b with hab | hba
  · by_cases hba2 : b ≤ a
    · have hEq : a = b := le_antisymm hab hba2
      subst hEq; simp
    · rw [if_pos hab, if_neg hba2]
  · by_cases hab2 : a ≤ b
    · have hEq : a = b := le_antisymm hab2 hba
      subst hEq; simp
    · rw [if_neg hab2, if_pos hba]

/-- Inserting one finding into the severity map preserves its symmetry. -/
theorem smInsert_symm (sm : List ((String × String) × String)) (f : Finding)
    (hs : ∀ x y, smGet sm (x, y) = smGet sm (y, x)) :
    ∀ x y, smGet (smInsert sm f) (x, y) = smGet (smInsert sm f) (y, x) := by
  intro x y
  rcases hfd : f.drugs_involved with _ | ⟨a, _ | ⟨b, _ | ⟨c, t⟩⟩⟩ <;>
    simp only [smInsert, hfd]
  · exact hs x y
  · exact hs x y
  · simp only [smGet]
    split_ifs <;>
      first
        | rfl
        | exact hs x y
        | (simp only [Prod.mk.injEq] at *; tauto)
  · exact hs x y

/-- Folding findings into the severity map preserves its symmetry. -/
theorem buildSm_symm_aux (fs : List Finding) (sm : List ((String × String) × String))
    (hs : ∀ x y, smGet sm (x, y) = smGet sm (y, x)) :
    ∀ x y, smGet (fs.foldl smInsert sm) (x, y) = smGet (fs.foldl smInsert sm) (y, x) := by
  induction fs generalizing sm with
  | nil => simpa using hs
  | cons f t ih =>
    intro x y
    exact ih (smInsert sm f) (smInsert_symm sm f hs) x y

/-- C5: interaction analysis is order-independent — requesting [A, B] and
[B, A] yields the same findings up to the orientation of the pair — and the
rendered interaction matrix assigns the identical severity to the (A, B) and
(B, A) cells for any findings list. -/
theorem claim_C5 (rs : List RiskResult) (a b : String) (findings : List Finding)
    (x y : String) :
    findingKeys (run_interaction_analysis [a, b] rs) =
      findingKeys (run_interaction_analysis [b, a] rs) ∧
    smGet (buildSm findings) (x, y) = smGet (buildSm findings) (y, x) := by
  constructor
  · simp only [findingKeys, run_interaction_analysis, allPairs, List.map_nil,
      List.map_cons, List.nil_append, List.append_nil, List.filterMap_cons,
      List.filterMap_nil]
    rw [lookupIxRule_symm a b]
    cases hl : lookupIxRule b a with
    | none => simp [hl]
    | some r => simp [hl, pairKey_comm a b]
  · exact buildSm_symm_aux findings [] (fun _ _ => rfl) x y

/-- C7: a structurally invalid upload — larger than 5 MB, or whose first 400
bytes contain neither VCF marker — fails validation, is discarded
(`uploaded = None`), and the Run Analysis handler selects the same VCF content
as if no file had been uploaded, so the pipeline is never invoked on it. -/
theorem claim_C7 (sizeBytes : Nat) (content : String)
    (h : 5 * 1024 * 1024 < sizeBytes ∨
      (containsSub (content.toList.take 400) VCF_MARKER1 = false ∧
       containsSub (content.toList.take 400) VCF_MARKER2 = false)) :
    validateUpload sizeBytes content = false ∧
    uploadedAfterValidation sizeBytes content = none ∧
    ∀ (loadFn : String → String) (persona chosen : Option String),
      analysisVcf loadFn persona (uploadedAfterValidation sizeBytes content) chosen =
        analysisVcf loadFn persona none chosen := by
  have hv : validateUpload sizeBytes content = false := by
    unfold validateUpload
    rcases h with h | ⟨h1, h2⟩
    · rw [if_pos]
      rw [lt_div_iff₀ (by norm_num : (0 : ℚ) < 1024 * 1024)]
      calc (5 : ℚ) * (1024 * 1024) = ((5 * 1024 * 1024 : Nat) : ℚ) := by norm_num
        _ < (sizeBytes : ℚ) := by exact_mod_cast h
    · by_cases hs : 5 < (sizeBytes : ℚ) / (1024 * 1024)
      · rw [if_pos hs]
      · rw [if_neg hs]
        simp only [h1, h2]
        rfl
  refine ⟨hv, ?_, ?_⟩
  · simp [uploadedAfterValidation, hv]
  · intro loadFn persona chosen
    simp [uploadedAfterValidation, hv]

/-- Witness for C7 on a 6 MB upload. -/
theorem claim_C7_w :
    validateUpload 6291456 "" = false ∧ uploadedAfterValidation 6291456 "" = none :=
  ⟨(claim_C7 6291456 "" (Or.inl (by norm_num))).1,
   (claim_C7 6291456 "" (Or.inl (by norm_num))).2.1⟩

/-- C8: the assembled drug set is duplicate-free; it is exactly the union of
the selected drugs and the processed custom entries; every custom entry comes
from splitting the field on commas, dropping pieces that strip to empty, and
stripping and uppercasing the rest; and an empty assembled set stops the run
without invoking the pipeline. -/
theorem claim_C8 (sel : List String) (custom : String) :
    (assembleDrugs sel custom).Nodup ∧
    (∀ d, d ∈ assembleDrugs sel custom ↔ d ∈ sel ∨ d ∈ customDrugList custom) ∧
    (∀ d ∈ customDrugList custom, ∃ piece ∈ custom.splitOn ",",
      piece.trim ≠ "" ∧ d = piece.trim.toUpper) ∧
    (assembleDrugs sel custom = [] → runAnalysisDrugs sel custom = none) := by
  refine ⟨List.nodup_dedup _, ?_, ?_, ?_⟩
  · intro d
    simp [assembleDrugs]
  · intro d hd
    unfold customDrugList at hd
    by_cases hc : custom.trim ≠ ""
    · rw [if_pos hc] at hd
      simp only [List.mem_map, List.mem_filter] at hd
      obtain ⟨piece, ⟨hmem, hne⟩, heq⟩ := hd
      exact ⟨piece, hmem, by simpa using hne, heq.symm⟩
    · rw [if_neg hc] at hd
      cases hd
  · intro h
    simp [runAnalysisDrugs, h]

/-- Witness for C8 at a concrete selection. -/
theorem claim_C8_w :
    "CODEINE" ∈ assembleDrugs ["CODEINE"] "" ↔
      "CODEINE" ∈ ["CODEINE"] ∨ "CODEINE" ∈ customDrugList "" :=
  (claim_C8 ["CODEINE"] "").2.1 "CODEINE"

/-- Every weight used by `compute_pgx` is at least 1. -/
theorem W_PGX_ge_one (d : String) : 1 ≤ W_PGX d := by
  unfold W_PGX
  split_ifs <;> norm_num

/-- Severity scores used by `compute_pgx` are nonnegative. -/
theorem SEV_S_nonneg (s : String) : 0 ≤ SEV_S s := by
  unfold SEV_S
  split_ifs <;> norm_num

/-- Risk scores used by `compute_pgx` are nonnegative. -/
theorem RISK_S_nonneg (s : String) : 0 ≤ RISK_S s := by
  unfold RISK_S
  split_ifs <;> norm_num

/-- The `compute_pgx` fold keeps the score sum nonnegative-growing and adds at
least 1 to the weight total per output. -/
theorem pgxFold_bounds (l : List Output) :
    ∀ acc : ℚ × ℚ × List (String × String × String × String × ℚ),
      acc.1 ≤ (l.foldl pgxStep acc).1 ∧
      acc.2.1 + (l.length : ℚ) ≤ (l.foldl pgxStep acc).2.1 := by
  induction l with
  | nil => intro acc; simp
  | cons o t ih =>
    intro acc
    have hsc : 0 ≤ (SEV_S o.severity + RISK_S o.risk_label) / 2 :=
      div_nonneg (add_nonneg (SEV_S_nonneg _) (RISK_S_nonneg _)) (by norm_num)
    have hwt : 1 ≤ W_PGX o.drug := W_PGX_ge_one _
    have hprod : 0 ≤ (SEV_S o.severity + RISK_S o.risk_label) / 2 * W_PGX o.drug :=
      mul_nonneg hsc (le_trans zero_le_one hwt)
    have h1 : acc.1 ≤ (pgxStep acc o).1 := by
      unfold pgxStep
      simpa using hprod
    have h2 : acc.2.1 + 1 ≤ (pgxStep acc o).2.1 := by
      unfold pgxStep
      simpa using hwt
    have ht := ih (pgxStep acc o)
    constructor
    · exact le_trans h1 (by simpa using ht.1)
    · have := ht.2
      rw [List.foldl_cons]
      push_cast [List.length_cons]
      linarith

/-- Any index clamped to at most 4 selects a label from the fixed list. -/
theorem pgx_label_mem (i : Nat) (hi : i ≤ 4) : PGX_LABELS.getD i "" ∈ PGX_LABELS := by
  interval_cases i <;> simp [PGX_LABELS]

/-- C10: `compute_pgx` is total and range-bounded — on a nonempty input the
total weight is positive (the weighted-average division is well defined), the
integer score lies in [0, 100] and the label is one of the five fixed risk
labels; on the empty input it returns `(0, "No data", [])`. -/
theorem claim_C10 (outputs : List Output) :
    (outputs ≠ [] →
      0 < (pgxFold outputs).2.1 ∧
      0 ≤ (compute_pgx outputs).1 ∧ (compute_pgx outputs).1 ≤ 100 ∧
      (compute_pgx outputs).2.1 ∈ PGX_LABELS) ∧
    (outputs = [] → compute_pgx outputs = (0, "No data", [])) := by
  constructor
  · intro hne
    have hlen : 1 ≤ outputs.length := by
      cases outputs with
      | nil => exact absurd rfl hne
      | cons o t => simp
    have haux := pgxFold_bounds outputs (0, 0, [])
    have hws : 0 ≤ (pgxFold outputs).1 := by
      have := haux.1
      simpa [pgxFold] using this
    have htw : 0 < (pgxFold outputs).2.1 := by
      have h2 := haux.2
      simp only [pgxFold] at h2 ⊢
      have hcast : (1 : ℚ) ≤ (outputs.length : ℚ) := by exact_mod_cast hlen
      linarith
    have htw0 : (pgxFold outputs).2.1 ≠ 0 := ne_of_gt htw
    have hq : 0 ≤ (pgxFold outputs).1 / (pgxFold outputs).2.1 :=
      div_nonneg hws (le_of_lt htw)
    have hfinal0 : 0 ≤ pgxFinal outputs := by
      unfold pgxFinal
      rw [if_pos htw0]
      refine le_min (by norm_num) ?_
      unfold pyInt
      rw [if_pos hq]
      exact Int.floor_nonneg.mpr hq
    have hfinal100 : pgxFinal outputs ≤ 100 := by
      unfold pgxFinal
      rw [if_pos htw0]
      exact min_le_left _ _
    have hcp : compute_pgx outputs =
        (pgxFinal outputs,
         PGX_LABELS.getD (min 4 (Int.fdiv (pgxFinal outputs) 20)).toNat "",
         (pgxFold outputs).2.2) := by
      unfold compute_pgx
      rw [if_neg (by simpa [List.isEmpty_iff] using hne)]
    refine ⟨htw, ?_, ?_, ?_⟩
    · rw [hcp]; exact hfinal0
    · rw [hcp]; exact hfinal100
    · rw [hcp]
      refine pgx_label_mem _ ?_
      have hmin : min 4 (Int.fdiv (pgxFinal outputs) 20) ≤ 4 := min_le_left _ _
      calc (min 4 (Int.fdiv (pgxFinal outputs) 20)).toNat
          ≤ (4 : Int).toNat := Int.toNat_le_toNat hmin
        _ = 4 := rfl
  · intro h
    rw [h]
    rfl

/-- Witness for C10 on a singleton output list. -/
theorem claim_C10_w :
    0 < (pgxFold [outC10]).2.1 ∧ 0 ≤ (compute_pgx [outC10]).1 ∧
    (compute_pgx [outC10]).1 ≤ 100 ∧ (compute_pgx [outC10]).2.1 ∈ PGX_LABELS :=
  (claim_C10 [outC10]).1 (by simp)

end PharmaGuard
